import Mathlib

/-!
Shallow embedding of `PoetBlockVerifier.verify_block` from
`consensus/poet/core/sawtooth_poet/poet_consensus/poet_block_verifier.py`
(sawtooth-core), together with the collaborator interfaces it consumes.

Python exceptions relevant to the control flow of `verify_block` are
modelled by the sum type `PyExc`: the method's `try` block catches exactly
`KeyError` and `ValueError`; every other exception class is collapsed into
`otherError`, which the method does not catch.  A Python call that may
raise is modelled as `Except PyExc α`.
-/

/-- Exceptions distinguished by the control flow of `verify_block`:
`KeyError` and `ValueError` are caught by its handlers; all other
exception classes behave identically there and are collapsed into
`otherError`. -/
inductive PyExc where
  | keyError
  | valueError
  | otherError
deriving DecidableEq, Repr

deriving instance DecidableEq for Except

/-- Result of a Python call that may raise. -/
abbrev PyResult (α : Type) := Except PyExc α

/-- Block header as read by `verify_block`: `signer_pubkey` (line 98),
`previous_block_id` (lines 74, and inside the certificate-history walk),
and the opaque consensus payload holding the serialized wait certificate. -/
structure BlockHeader where
  signer_pubkey : Nat
  previous_block_id : Nat
  consensus : Nat
deriving DecidableEq, Repr

/-- Block wrapper as read by `verify_block`: header plus the resulting
state root hash.  `previous_block_id` and `state_root_hash` are the
wrapper properties used at lines 74 and 85. -/
structure Block where
  header : BlockHeader
  state_root_hash : Nat
deriving DecidableEq, Repr

/-- The wrapper property `block_wrapper.previous_block_id` delegates to the
header. -/
def Block.previous_block_id (b : Block) : Nat :=
  b.header.previous_block_id

/-- Opaque wait certificate: `verify_block` only passes it around and calls
`check_valid` on it. -/
structure WaitCertificate where
  payload : Nat
deriving DecidableEq, Repr

/-- Validator registry entry as read by `verify_block`: `name`, `id` (used
only in the debug log) and `signup_info.poet_public_key` (line 129). -/
structure ValidatorInfo where
  name : Nat
  id : Nat
  poet_public_key : Nat
deriving DecidableEq, Repr

/-- Modelled from the spec: `ValidatorRegistryView` (its source is not part
of this fragment).  Section 4.3: a read-only query surface over a state
snapshot; `count` is the number of registered identities and
`lookup(public_key)` fails with "not found" (a `KeyError`, the exception
the caller in `verify_block` handles) when no registered identity matches. -/
structure ValidatorRegistryView where
  entries : List (Nat × ValidatorInfo)
deriving DecidableEq, Repr

/-- Modelled from the spec: `get_validators` returns the registered
identities; `verify_block` only takes its length (line 92). -/
def ValidatorRegistryView.get_validators (v : ValidatorRegistryView) :
    List ValidatorInfo :=
  v.entries.map Prod.snd

/-- Modelled from the spec: `get_validator_info` looks up the identity
record whose attestation public key matches; not found is a `KeyError`. -/
def ValidatorRegistryView.get_validator_info (v : ValidatorRegistryView)
    (public_key : Nat) : PyResult ValidatorInfo :=
  match v.entries.find? (fun e => e.fst = public_key) with
  | some e => Except.ok e.snd
  | none => Except.error PyExc.keyError

/-- Log records emitted by `verify_block`, in source order. -/
inductive LogEvent where
  | debugSignerInfo
  | errorNoRegistryEntry
  | errorCertInvalid
  | warnAcceptForNow
  | warnNoValidatorsRegistered
deriving DecidableEq, Repr

/-- Collaborator behaviours consumed by `verify_block`, given at their
interface boundary (spec section 6).  The block cache is a read-only
mapping (`KeyError` on a missing identifier is modelled as `none`); the
other entries are the external calls made inside `verify_block`, each of
which may raise. -/
structure Env where
  block_cache : Nat → Option Block
  create_view : Nat → PyResult Nat
  get_poet_enclave_module : Nat → PyResult Nat
  registry : Nat → ValidatorRegistryView
  build_certificate_list :
    BlockHeader → Nat → Nat → PyResult (List WaitCertificate)
  deserialize_wait_certificate : Block → Nat → PyResult WaitCertificate
  check_valid :
    WaitCertificate → Nat → List WaitCertificate → Nat → PyResult Unit

/-- Lines 82-85 of `verify_block`: the conditional expression picking the
previous block's state root hash when a previous block was found, and the
candidate's own state root hash otherwise. -/
def state_root_of (previous_block : Option Block) (bw : Block) : Nat :=
  match previous_block with
  | some pb => pb.state_root_hash
  | none => bw.state_root_hash

/-- Lines 71-85 of `verify_block`: look up the predecessor in the block
cache (`KeyError` means absent, not an error), then pick the previous
block's state root hash, or the candidate's own when absent. -/
def resolve_state_root (block_cache : Nat → Option Block) (bw : Block) :
    Nat :=
  state_root_of (block_cache bw.previous_block_id) bw

/-- The body of the `try` statement at lines 93-129: registry lookup of the
signer, debug log, certificate-history build, deserialization of the
candidate certificate, and `check_valid`.  An exception carries the log
records already emitted before it was raised. -/
def verify_try_body (env : Env) (bw : Block) (state_view : Nat)
    (poet_enclave_module : Nat) (sample_length : Nat) :
    Except (PyExc × List LogEvent) (List LogEvent) :=
  match (env.registry state_view).get_validator_info
      bw.header.signer_pubkey with
  | Except.error e => Except.error (e, [])
  | Except.ok _validator_info =>
    match env.build_certificate_list bw.header poet_enclave_module
        sample_length with
    | Except.error e => Except.error (e, [LogEvent.debugSignerInfo])
    | Except.ok certificates =>
      match env.deserialize_wait_certificate bw poet_enclave_module with
      | Except.error e => Except.error (e, [LogEvent.debugSignerInfo])
      | Except.ok wait_certificate =>
        match env.check_valid wait_certificate poet_enclave_module
            certificates _validator_info.poet_public_key with
        | Except.error e => Except.error (e, [LogEvent.debugSignerInfo])
        | Except.ok _ => Except.ok [LogEvent.debugSignerInfo]

/-- `PoetBlockVerifier.verify_block` (lines 58-142).  Returns the boolean
decision, or the exception the method lets propagate, together with the log
records emitted.  `sample_length` stands for
`WaitTimer.certificate_sample_length` (passed as a parameter, spec
section 9). -/
def verify_block (env : Env) (bw : Block) (sample_length : Nat) :
    PyResult Bool × List LogEvent :=
  let state_root_hash := resolve_state_root env.block_cache bw
  match env.create_view state_root_hash with
  | Except.error e => (Except.error e, [])
  | Except.ok state_view =>
    match env.get_poet_enclave_module state_view with
    | Except.error e => (Except.error e, [])
    | Except.ok poet_enclave_module =>
      if ((env.registry state_view).get_validators).length > 0 then
        match verify_try_body env bw state_view poet_enclave_module
            sample_length with
        | Except.ok logs => (Except.ok true, logs)
        | Except.error (PyExc.keyError, logs) =>
            (Except.ok false, logs ++ [LogEvent.errorNoRegistryEntry])
        | Except.error (PyExc.valueError, logs) =>
            (Except.ok true,
              logs ++ [LogEvent.errorCertInvalid, LogEvent.warnAcceptForNow])
        | Except.error (PyExc.otherError, logs) =>
            (Except.error PyExc.otherError, logs)
      else
        (Except.ok true, [LogEvent.warnNoValidatorsRegistered])

/-- Genesis sentinel block identifier (`NULL_BLOCK_IDENTIFIER`). -/
def NULL_BLOCK_IDENTIFIER : Nat := 0

/-- Modelled from the spec: the ancestor walk of
`utils.build_certificate_list` (section 4.2; its source is not part of this
fragment).  Starting from a block identifier, collect the embedded wait
certificate of each cached ancestor, most-recent-first, stopping once
`maximum_number` certificates are collected, at the chain start (genesis
sentinel or missing predecessor), or at a predecessor whose payload holds
no certificate. -/
def build_certificate_walk (block_cache : Nat → Option Block)
    (deser : Block → Option WaitCertificate) :
    Nat → Nat → List WaitCertificate
  | _, 0 => []
  | block_id, maximum_number + 1 =>
    if block_id = NULL_BLOCK_IDENTIFIER then []
    else
      match block_cache block_id with
      | none => []
      | some b =>
        match deser b with
        | none => []
        | some c =>
          c :: build_certificate_walk block_cache deser
            b.header.previous_block_id maximum_number

/-- Modelled from the spec: `utils.build_certificate_list` anchors the walk
at the block referenced by the anchor header's `previous_block_id`
(section 4.2), so the candidate's own certificate is never visited. -/
def build_certificate_list_spec (block_cache : Nat → Option Block)
    (deser : Block → Option WaitCertificate) (block_header : BlockHeader)
    (maximum_number : Nat) : List WaitCertificate :=
  build_certificate_walk block_cache deser block_header.previous_block_id
    maximum_number

/-- Number of consecutive ancestors actually available in the cache from a
given block identifier, counted to a depth bound `fuel` (the chain may in
principle be unboundedly long; `fuel` only bounds the counting). -/
def available_ancestors (block_cache : Nat → Option Block) :
    Nat → Nat → Nat
  | _, 0 => 0
  | block_id, fuel + 1 =>
    if block_id = NULL_BLOCK_IDENTIFIER then 0
    else
      match block_cache block_id with
      | none => 0
      | some b =>
        available_ancestors block_cache b.header.previous_block_id fuel + 1

/-- The block reached after following `k` predecessor links starting at
`block_id` (position 0 is the block at `block_id` itself), or `none` when
the chain ends before position `k`. -/
def chain_lookup (block_cache : Nat → Option Block) :
    Nat → Nat → Option Block
  | block_id, 0 =>
    if block_id = NULL_BLOCK_IDENTIFIER then none else block_cache block_id
  | block_id, k + 1 =>
    if block_id = NULL_BLOCK_IDENTIFIER then none
    else
      match block_cache block_id with
      | none => none
      | some b => chain_lookup block_cache b.header.previous_block_id k

/-- The fields `PoetBlockVerifier.__init__` stores (lines 54-56): the block
cache, the state view factory, and the data directory, modelled as
explicit state so that absence of mutation can be stated. -/
structure VerifierState where
  block_cache : Nat → Option Block
  state_view_factory : Nat
  data_dir : Nat

/-- A dictionary read on the block cache: returns the looked-up value and
the (unchanged, since `d[k]` does not write) cache state. -/
def cache_get (s : VerifierState) (block_id : Nat) :
    Option Block × VerifierState :=
  (s.block_cache block_id, s)

/-- `verify_block` in state-passing form: the verifier's fields are
threaded through every statement of the method.  The method body contains
only reads (the cache lookup at line 74 and external calls on read-only
interfaces, spec section 6), so each step passes the state along; the
observable effects are the returned decision and the log records. -/
def verify_block_st (env : Env) (s : VerifierState) (bw : Block)
    (sample_length : Nat) :
    (PyResult Bool × List LogEvent) × VerifierState :=
  let looked := cache_get s bw.previous_block_id
  let s1 := looked.snd
  let state_root_hash := state_root_of looked.fst bw
  match env.create_view state_root_hash with
  | Except.error e => ((Except.error e, []), s1)
  | Except.ok state_view =>
    match env.get_poet_enclave_module state_view with
    | Except.error e => ((Except.error e, []), s1)
    | Except.ok poet_enclave_module =>
      if ((env.registry state_view).get_validators).length > 0 then
        match verify_try_body env bw state_view poet_enclave_module
            sample_length with
        | Except.ok logs => ((Except.ok true, logs), s1)
        | Except.error (PyExc.keyError, logs) =>
            ((Except.ok false, logs ++ [LogEvent.errorNoRegistryEntry]), s1)
        | Except.error (PyExc.valueError, logs) =>
            ((Except.ok true,
              logs ++ [LogEvent.errorCertInvalid,
                LogEvent.warnAcceptForNow]), s1)
        | Except.error (PyExc.otherError, logs) =>
            ((Except.error PyExc.otherError, logs), s1)
      else
        ((Except.ok true, [LogEvent.warnNoValidatorsRegistered]), s1)

/-- Fixture: registry entry for public key 9. -/
def infoA : ValidatorInfo := ⟨1, 2, 77⟩

/-- Fixture: a wait certificate. -/
def certA : WaitCertificate := ⟨41⟩

/-- Fixture: predecessor block (its own predecessor is the genesis
sentinel). -/
def blockPrev : Block := ⟨⟨9, 0, 101⟩, 400⟩

/-- Fixture: candidate block, signer public key 9, predecessor id 5. -/
def blockB : Block := ⟨⟨9, 5, 100⟩, 500⟩

/-- Fixture: candidate block whose predecessor (id 7) is absent from the
cache below. -/
def blockC : Block := ⟨⟨9, 7, 102⟩, 600⟩

/-- Fixture: block cache containing only `blockPrev` under id 5. -/
def cacheAB : Nat → Option Block :=
  fun i => if i = 5 then some blockPrev else none

/-- Fixture: deserialization that reads the certificate off the consensus
payload, for exercising the history walk. -/
def deserConsensus : Block → Option WaitCertificate :=
  fun b => some ⟨b.header.consensus⟩

/-- Fixture: environment where everything succeeds except that the
candidate certificate fails to deserialize (`ValueError`), with a
non-empty registry matching the signer. -/
def envDeserFails : Env :=
  { block_cache := cacheAB
    create_view := fun r => Except.ok r
    get_poet_enclave_module := fun sv => Except.ok sv
    registry := fun _ => ⟨[(9, infoA)]⟩
    build_certificate_list := fun _ _ _ => Except.ok []
    deserialize_wait_certificate := fun _ _ => Except.error PyExc.valueError
    check_valid := fun _ _ _ _ => Except.ok () }

/-- Fixture: environment where the certificate deserializes but
`check_valid` fails with a `ValueError`. -/
def envCheckFails : Env :=
  { block_cache := cacheAB
    create_view := fun r => Except.ok r
    get_poet_enclave_module := fun sv => Except.ok sv
    registry := fun _ => ⟨[(9, infoA)]⟩
    build_certificate_list := fun _ _ _ => Except.ok []
    deserialize_wait_certificate := fun _ _ => Except.ok certA
    check_valid := fun _ _ _ _ => Except.error PyExc.valueError }

/-- Fixture: environment whose registry has no entries; deserialization is
made to fail to show acceptance ignores certificate content. -/
def envEmptyReg : Env :=
  { block_cache := cacheAB
    create_view := fun r => Except.ok r
    get_poet_enclave_module := fun sv => Except.ok sv
    registry := fun _ => ⟨[]⟩
    build_certificate_list := fun _ _ _ => Except.error PyExc.valueError
    deserialize_wait_certificate := fun _ _ => Except.error PyExc.valueError
    check_valid := fun _ _ _ _ => Except.error PyExc.otherError }

/-- Fixture: environment whose registry holds one entry for a public key
(8) different from the candidate signer's (9). -/
def envNoMatch : Env :=
  { block_cache := cacheAB
    create_view := fun r => Except.ok r
    get_poet_enclave_module := fun sv => Except.ok sv
    registry := fun _ => ⟨[(8, infoA)]⟩
    build_certificate_list := fun _ _ _ => Except.ok []
    deserialize_wait_certificate := fun _ _ => Except.ok certA
    check_valid := fun _ _ _ _ => Except.ok () }

/-- Fixture: environment whose state view factory raises an exception
outside the `KeyError`/`ValueError` taxonomy. -/
def envRaises : Env :=
  { block_cache := cacheAB
    create_view := fun _ => Except.error PyExc.otherError
    get_poet_enclave_module := fun sv => Except.ok sv
    registry := fun _ => ⟨[(9, infoA)]⟩
    build_certificate_list := fun _ _ _ => Except.ok []
    deserialize_wait_certificate := fun _ _ => Except.ok certA
    check_valid := fun _ _ _ _ => Except.ok () }

/-- Fixture: environment where the certificate-history build raises a
`ValueError`. -/
def envBuildValueErr : Env :=
  { block_cache := cacheAB
    create_view := fun r => Except.ok r
    get_poet_enclave_module := fun sv => Except.ok sv
    registry := fun _ => ⟨[(9, infoA)]⟩
    build_certificate_list := fun _ _ _ => Except.error PyExc.valueError
    deserialize_wait_certificate := fun _ _ => Except.ok certA
    check_valid := fun _ _ _ _ => Except.ok () }

/-- Fixture: environment where the certificate-history build raises a
`KeyError`. -/
def envBuildKeyErr : Env :=
  { block_cache := cacheAB
    create_view := fun r => Except.ok r
    get_poet_enclave_module := fun sv => Except.ok sv
    registry := fun _ => ⟨[(9, infoA)]⟩
    build_certificate_list := fun _ _ _ => Except.error PyExc.keyError
    deserialize_wait_certificate := fun _ _ => Except.ok certA
    check_valid := fun _ _ _ _ => Except.ok () }

/-! ## Helper lemmas about the certificate-history walk -/

theorem build_walk_length_le (cache : Nat → Option Block)
    (deser : Block → Option WaitCertificate) :
    ∀ (n block_id : Nat),
      (build_certificate_walk cache deser block_id n).length ≤ n := by
  intro n
  induction n with
  | zero => intro bid; simp [build_certificate_walk]
  | succ k ih =>
    intro bid
    by_cases hb : bid = NULL_BLOCK_IDENTIFIER
    · simp [build_certificate_walk, hb]
    · cases hcb : cache bid with
      | none => simp [build_certificate_walk, hb, hcb]
      | some b =>
        cases hd : deser b with
        | none => simp [build_certificate_walk, hb, hcb, hd]
        | some c =>
          simp only [build_certificate_walk, hb, hcb, hd, if_neg,
            List.length_cons]
          exact Nat.succ_le_succ (ih _)

theorem build_walk_length_le_available (cache : Nat → Option Block)
    (deser : Block → Option WaitCertificate) :
    ∀ (n block_id : Nat),
      (build_certificate_walk cache deser block_id n).length ≤
        available_ancestors cache block_id n := by
  intro n
  induction n with
  | zero => intro bid; simp [build_certificate_walk, available_ancestors]
  | succ k ih =>
    intro bid
    by_cases hb : bid = NULL_BLOCK_IDENTIFIER
    · simp [build_certificate_walk, available_ancestors, hb]
    · cases hcb : cache bid with
      | none => simp [build_certificate_walk, available_ancestors, hb, hcb]
      | some b =>
        cases hd : deser b with
        | none => simp [build_certificate_walk, available_ancestors, hb, hcb,
            hd]
        | some c =>
          simp only [build_certificate_walk, available_ancestors, hb, hcb,
            hd, if_neg, List.length_cons]
          exact Nat.succ_le_succ (ih _)

theorem available_ancestors_mono (cache : Nat → Option Block) :
    ∀ (n m : Nat), n ≤ m → ∀ block_id,
      available_ancestors cache block_id n ≤
        available_ancestors cache block_id m := by
  intro n
  induction n with
  | zero => intro m _ bid; simp [available_ancestors]
  | succ k ih =>
    intro m hnm bid
    obtain ⟨j, rfl⟩ : ∃ j, m = j + 1 := ⟨m - 1, by omega⟩
    by_cases hb : bid = NULL_BLOCK_IDENTIFIER
    · simp [available_ancestors, hb]
    · cases hcb : cache bid with
      | none => simp [available_ancestors, hb, hcb]
      | some b =>
        simp only [available_ancestors, hb, hcb, if_neg]
        exact Nat.succ_le_succ (ih j (by omega) _)

theorem build_walk_mem (cache : Nat → Option Block)
    (deser : Block → Option WaitCertificate) :
    ∀ (n block_id : Nat) (c : WaitCertificate),
      c ∈ build_certificate_walk cache deser block_id n →
      ∃ k, k < n ∧ ∃ b, chain_lookup cache block_id k = some b ∧
        deser b = some c := by
  intro n
  induction n with
  | zero => intro bid c hc; simp [build_certificate_walk] at hc
  | succ j ih =>
    intro bid c hc
    by_cases hb : bid = NULL_BLOCK_IDENTIFIER
    · simp [build_certificate_walk, hb] at hc
    · cases hcb : cache bid with
      | none => simp [build_certificate_walk, hb, hcb] at hc
      | some b =>
        cases hd : deser b with
        | none => simp [build_certificate_walk, hb, hcb, hd] at hc
        | some c0 =>
          have hstep : build_certificate_walk cache deser bid (j + 1) =
              c0 :: build_certificate_walk cache deser
                b.header.previous_block_id j := by
            simp [build_certificate_walk, hb, hcb, hd]
          rw [hstep] at hc
          rcases List.mem_cons.mp hc with hceq | hmem
          · subst hceq
            exact ⟨0, Nat.succ_pos j, b, by simp [chain_lookup, hb, hcb], hd⟩
          · obtain ⟨k, hk, b2, hcl, hd2⟩ :=
              ih b.header.previous_block_id c hmem
            refine ⟨k + 1, Nat.succ_lt_succ hk, b2, ?_, hd2⟩
            simp only [chain_lookup, hb, hcb, if_neg]
            exact hcl

/-! ## Claim theorems -/

/-- Claim C1 counterexample: with a non-empty registry matching the
proposer and a consensus payload whose wait-certificate deserialization
fails (a `ValueError`, the structural-error exception of the Python
implementation), `verify_block` returns true, not false: the `ValueError`
handler at lines 135-137 logs the failure and falls through to
`return True`. -/
theorem verify_block_deser_failure_counterexample :
    verify_block envDeserFails blockB 5 =
      (Except.ok true, [LogEvent.debugSignerInfo, LogEvent.errorCertInvalid,
        LogEvent.warnAcceptForNow]) ∧
    (verify_block envDeserFails blockB 5).fst ≠ Except.ok false ∧
    0 < ((envDeserFails.registry 400).get_validators).length ∧
    (envDeserFails.registry 400).get_validator_info
      blockB.header.signer_pubkey = Except.ok infoA ∧
    envDeserFails.deserialize_wait_certificate blockB 400 =
      Except.error PyExc.valueError :=
  ⟨by decide, by decide, by decide, by decide, by decide⟩

/-- Claim C1 (amended): for every candidate block verified against a
non-empty identity registry with a matching proposer entry, if
wait-certificate deserialization fails with a `ValueError`, `verify_block`
returns TRUE, logging the failure: the lenient `ValueError` handler covers
deserialization as well as validation. -/
theorem verify_block_deser_failure_is_accepted
    (env : Env) (bw : Block) (n sv m : Nat) (info : ValidatorInfo)
    (certs : List WaitCertificate)
    (hv : env.create_view (resolve_state_root env.block_cache bw) =
      Except.ok sv)
    (he : env.get_poet_enclave_module sv = Except.ok m)
    (hr : 0 < ((env.registry sv).get_validators).length)
    (hl : (env.registry sv).get_validator_info bw.header.signer_pubkey =
      Except.ok info)
    (hbld : env.build_certificate_list bw.header m n = Except.ok certs)
    (hd : env.deserialize_wait_certificate bw m =
      Except.error PyExc.valueError) :
    verify_block env bw n =
      (Except.ok true, [LogEvent.debugSignerInfo, LogEvent.errorCertInvalid,
        LogEvent.warnAcceptForNow]) := by
  simp [verify_block, verify_try_body, hv, he, hr, hl, hbld, hd]

/-- Claim C1 (amended) witness: concrete run of the amended statement. -/
theorem verify_block_deser_failure_is_accepted_witness :
    envDeserFails.deserialize_wait_certificate blockB 400 =
      Except.error PyExc.valueError ∧
    verify_block envDeserFails blockB 5 =
      (Except.ok true, [LogEvent.debugSignerInfo, LogEvent.errorCertInvalid,
        LogEvent.warnAcceptForNow]) :=
  ⟨by decide,
    verify_block_deser_failure_is_accepted envDeserFails blockB 5 400 400
      infoA [] (by decide) (by decide) (by decide) (by decide) (by decide)
      (by decide)⟩

/-- Claim C2: for every candidate block whose wait certificate
deserializes successfully but whose `check_valid` fails with a validation
error (`ValueError`), `verify_block` returns true and a warning record
("we will accept for now") is logged. -/
theorem verify_block_check_valid_failure_accepted
    (env : Env) (bw : Block) (n sv m : Nat) (info : ValidatorInfo)
    (certs : List WaitCertificate) (wc : WaitCertificate)
    (hv : env.create_view (resolve_state_root env.block_cache bw) =
      Except.ok sv)
    (he : env.get_poet_enclave_module sv = Except.ok m)
    (hr : 0 < ((env.registry sv).get_validators).length)
    (hl : (env.registry sv).get_validator_info bw.header.signer_pubkey =
      Except.ok info)
    (hbld : env.build_certificate_list bw.header m n = Except.ok certs)
    (hd : env.deserialize_wait_certificate bw m = Except.ok wc)
    (hc : env.check_valid wc m certs info.poet_public_key =
      Except.error PyExc.valueError) :
    verify_block env bw n =
      (Except.ok true, [LogEvent.debugSignerInfo, LogEvent.errorCertInvalid,
        LogEvent.warnAcceptForNow]) ∧
    LogEvent.warnAcceptForNow ∈ (verify_block env bw n).snd := by
  have hmain : verify_block env bw n =
      (Except.ok true, [LogEvent.debugSignerInfo, LogEvent.errorCertInvalid,
        LogEvent.warnAcceptForNow]) := by
    simp [verify_block, verify_try_body, hv, he, hr, hl, hbld, hd, hc]
  exact ⟨hmain, by rw [hmain]; simp⟩

/-- Claim C2 witness: concrete run with a failing statistical check. -/
theorem verify_block_check_valid_failure_accepted_witness :
    envCheckFails.check_valid certA 400 [] infoA.poet_public_key =
      Except.error PyExc.valueError ∧
    verify_block envCheckFails blockB 5 =
      (Except.ok true, [LogEvent.debugSignerInfo, LogEvent.errorCertInvalid,
        LogEvent.warnAcceptForNow]) ∧
    LogEvent.warnAcceptForNow ∈ (verify_block envCheckFails blockB 5).snd :=
  ⟨by decide,
    (verify_block_check_valid_failure_accepted envCheckFails blockB 5 400 400
      infoA [] certA (by decide) (by decide) (by decide) (by decide)
      (by decide) (by decide) (by decide)).1,
    (verify_block_check_valid_failure_accepted envCheckFails blockB 5 400 400
      infoA [] certA (by decide) (by decide) (by decide) (by decide)
      (by decide) (by decide) (by decide)).2⟩

/-- Claim C3: for every candidate block, if the identity registry view over
the resolved state snapshot contains zero registered identities,
`verify_block` returns true unconditionally, whatever the
certificate-handling collaborators do (they are arbitrary here). -/
theorem verify_block_empty_registry_accepts
    (env : Env) (bw : Block) (n sv m : Nat)
    (hv : env.create_view (resolve_state_root env.block_cache bw) =
      Except.ok sv)
    (he : env.get_poet_enclave_module sv = Except.ok m)
    (hr : (env.registry sv).get_validators = []) :
    verify_block env bw n =
      (Except.ok true, [LogEvent.warnNoValidatorsRegistered]) := by
  simp [verify_block, hv, he, hr]

/-- Claim C3 witness: concrete run with an empty registry and a
certificate whose deserialization and validation would both fail. -/
theorem verify_block_empty_registry_accepts_witness :
    (envEmptyReg.registry 400).get_validators = [] ∧
    envEmptyReg.deserialize_wait_certificate blockB 400 =
      Except.error PyExc.valueError ∧
    verify_block envEmptyReg blockB 5 =
      (Except.ok true, [LogEvent.warnNoValidatorsRegistered]) :=
  ⟨by decide, by decide,
    verify_block_empty_registry_accepts envEmptyReg blockB 5 400 400
      (by decide) (by decide) (by decide)⟩

/-- Claim C4: for every candidate block, if the registry is non-empty and
no registered identity's public key matches the candidate header's signer
public key, `verify_block` returns false and the unregistered-proposer
condition is reported (the error-level "no validator registry entry"
record). -/
theorem verify_block_unregistered_signer_rejects
    (env : Env) (bw : Block) (n sv m : Nat)
    (hv : env.create_view (resolve_state_root env.block_cache bw) =
      Except.ok sv)
    (he : env.get_poet_enclave_module sv = Except.ok m)
    (hr : 0 < ((env.registry sv).get_validators).length)
    (hnm : ∀ e ∈ (env.registry sv).entries,
      e.fst ≠ bw.header.signer_pubkey) :
    verify_block env bw n =
      (Except.ok false, [LogEvent.errorNoRegistryEntry]) ∧
    LogEvent.errorNoRegistryEntry ∈ (verify_block env bw n).snd := by
  have hfind : ((env.registry sv).entries).find?
      (fun e => e.fst = bw.header.signer_pubkey) = none := by
    rw [List.find?_eq_none]
    intro x hx
    simpa using hnm x hx
  have hmain : verify_block env bw n =
      (Except.ok false, [LogEvent.errorNoRegistryEntry]) := by
    simp [verify_block, verify_try_body,
      ValidatorRegistryView.get_validator_info, hv, he, hr, hfind]
  exact ⟨hmain, by rw [hmain]; simp⟩

/-- Claim C4 witness: registry holding only key 8, signer key 9. -/
theorem verify_block_unregistered_signer_rejects_witness :
    0 < ((envNoMatch.registry 400).get_validators).length ∧
    (∀ e ∈ (envNoMatch.registry 400).entries,
      e.fst ≠ blockB.header.signer_pubkey) ∧
    verify_block envNoMatch blockB 5 =
      (Except.ok false, [LogEvent.errorNoRegistryEntry]) :=
  ⟨by decide, by decide,
    (verify_block_unregistered_signer_rejects envNoMatch blockB 5 400 400
      (by decide) (by decide) (by decide) (by decide)).1⟩

/-- Claim C5: the state root hash used to build the verification context
(the argument `verify_block` passes to the state-view factory, computed by
`resolve_state_root`) equals the previous block's state root hash when the
previous block is present in the block cache, and the candidate's own
state root hash when it is absent. -/
theorem resolve_state_root_previous_or_own
    (block_cache : Nat → Option Block) (bw : Block) :
    (∀ pb, block_cache bw.previous_block_id = some pb →
      resolve_state_root block_cache bw = pb.state_root_hash) ∧
    (block_cache bw.previous_block_id = none →
      resolve_state_root block_cache bw = bw.state_root_hash) := by
  constructor
  · intro pb hpb
    simp [resolve_state_root, state_root_of, hpb]
  · intro hpb
    simp [resolve_state_root, state_root_of, hpb]

/-- Claim C5 witness: present-predecessor and absent-predecessor cases on
the concrete cache. -/
theorem resolve_state_root_previous_or_own_witness :
    (cacheAB blockB.previous_block_id = some blockPrev ∧
      resolve_state_root cacheAB blockB = blockPrev.state_root_hash) ∧
    (cacheAB blockC.previous_block_id = none ∧
      resolve_state_root cacheAB blockC = blockC.state_root_hash) :=
  ⟨⟨by decide,
     (resolve_state_root_previous_or_own cacheAB blockB).1 blockPrev
      (by decide)⟩,
   ⟨by decide,
     (resolve_state_root_previous_or_own cacheAB blockC).2 (by decide)⟩⟩

/-- Claim C8: any `ValueError` raised anywhere inside the verification
attempt — during certificate-history building, wait-certificate
deserialization, or the final `check_valid` call — causes `verify_block`
to return true with the lenient-accept log records: the single
`except ValueError` handler at lines 135-137 spans the whole `try` block. -/
theorem verify_block_any_value_error_accepts
    (env : Env) (bw : Block) (n sv m : Nat) (info : ValidatorInfo)
    (hv : env.create_view (resolve_state_root env.block_cache bw) =
      Except.ok sv)
    (he : env.get_poet_enclave_module sv = Except.ok m)
    (hr : 0 < ((env.registry sv).get_validators).length)
    (hl : (env.registry sv).get_validator_info bw.header.signer_pubkey =
      Except.ok info) :
    (env.build_certificate_list bw.header m n =
        Except.error PyExc.valueError →
      verify_block env bw n =
        (Except.ok true, [LogEvent.debugSignerInfo,
          LogEvent.errorCertInvalid, LogEvent.warnAcceptForNow])) ∧
    (∀ certs, env.build_certificate_list bw.header m n = Except.ok certs →
      env.deserialize_wait_certificate bw m =
        Except.error PyExc.valueError →
      verify_block env bw n =
        (Except.ok true, [LogEvent.debugSignerInfo,
          LogEvent.errorCertInvalid, LogEvent.warnAcceptForNow])) ∧
    (∀ certs wc, env.build_certificate_list bw.header m n =
        Except.ok certs →
      env.deserialize_wait_certificate bw m = Except.ok wc →
      env.check_valid wc m certs info.poet_public_key =
        Except.error PyExc.valueError →
      verify_block env bw n =
        (Except.ok true, [LogEvent.debugSignerInfo,
          LogEvent.errorCertInvalid, LogEvent.warnAcceptForNow])) := by
  refine ⟨?_, ?_, ?_⟩
  · intro hb
    simp [verify_block, verify_try_body, hv, he, hr, hl, hb]
  · intro certs hb hd
    simp [verify_block, verify_try_body, hv, he, hr, hl, hb, hd]
  · intro certs wc hb hd hc
    simp [verify_block, verify_try_body, hv, he, hr, hl, hb, hd, hc]

/-- Claim C8 witness: a `ValueError` from the certificate-history build is
accepted. -/
theorem verify_block_any_value_error_accepts_witness :
    envBuildValueErr.build_certificate_list blockB.header 400 5 =
      Except.error PyExc.valueError ∧
    verify_block envBuildValueErr blockB 5 =
      (Except.ok true, [LogEvent.debugSignerInfo, LogEvent.errorCertInvalid,
        LogEvent.warnAcceptForNow]) :=
  ⟨by decide,
    (verify_block_any_value_error_accepts envBuildValueErr blockB 5 400 400
      infoA (by decide) (by decide) (by decide) (by decide)).1 (by decide)⟩

/-- Claim C9: any `KeyError` raised anywhere inside the verification
attempt — from the registry lookup of the proposer's key, or escaping the
certificate-history build, deserialization, or `check_valid` — causes
`verify_block` to return false with the "no validator registry entry"
error record: the single `except KeyError` handler at lines 130-134 spans
the whole `try` block. -/
theorem verify_block_any_key_error_rejects
    (env : Env) (bw : Block) (n sv m : Nat)
    (hv : env.create_view (resolve_state_root env.block_cache bw) =
      Except.ok sv)
    (he : env.get_poet_enclave_module sv = Except.ok m)
    (hr : 0 < ((env.registry sv).get_validators).length) :
    ((env.registry sv).get_validator_info bw.header.signer_pubkey =
        Except.error PyExc.keyError →
      verify_block env bw n =
        (Except.ok false, [LogEvent.errorNoRegistryEntry])) ∧
    (∀ info, (env.registry sv).get_validator_info bw.header.signer_pubkey =
        Except.ok info →
      (env.build_certificate_list bw.header m n =
          Except.error PyExc.keyError →
        verify_block env bw n =
          (Except.ok false, [LogEvent.debugSignerInfo,
            LogEvent.errorNoRegistryEntry])) ∧
      (∀ certs, env.build_certificate_list bw.header m n =
          Except.ok certs →
        env.deserialize_wait_certificate bw m =
          Except.error PyExc.keyError →
        verify_block env bw n =
          (Except.ok false, [LogEvent.debugSignerInfo,
            LogEvent.errorNoRegistryEntry])) ∧
      (∀ certs wc, env.build_certificate_list bw.header m n =
          Except.ok certs →
        env.deserialize_wait_certificate bw m = Except.ok wc →
        env.check_valid wc m certs info.poet_public_key =
          Except.error PyExc.keyError →
        verify_block env bw n =
          (Except.ok false, [LogEvent.debugSignerInfo,
            LogEvent.errorNoRegistryEntry]))) := by
  refine ⟨?_, ?_⟩
  · intro hl
    simp [verify_block, verify_try_body, hv, he, hr, hl]
  · intro info hl
    refine ⟨?_, ?_, ?_⟩
    · intro hb
      simp [verify_block, verify_try_body, hv, he, hr, hl, hb]
    · intro certs hb hd
      simp [verify_block, verify_try_body, hv, he, hr, hl, hb, hd]
    · intro certs wc hb hd hc
      simp [verify_block, verify_try_body, hv, he, hr, hl, hb, hd, hc]

/-- Claim C9 witness: a `KeyError` from the certificate-history build is
rejected with the registry-entry error record. -/
theorem verify_block_any_key_error_rejects_witness :
    envBuildKeyErr.build_certificate_list blockB.header 400 5 =
      Except.error PyExc.keyError ∧
    verify_block envBuildKeyErr blockB 5 =
      (Except.ok false, [LogEvent.debugSignerInfo,
        LogEvent.errorNoRegistryEntry]) :=
  ⟨by decide,
    ((verify_block_any_key_error_rejects envBuildKeyErr blockB 5 400 400
      (by decide) (by decide) (by decide)).2 infoA (by decide)).1
      (by decide)⟩

/-- Claim C7: the certificate sample assembled for validation never
exceeds the `maximum_number` bound (`SAMPLE_LENGTH`), never exceeds the
number of ancestors actually available in the cache (counted to any depth
covering the bound), and — the walk being anchored at the candidate
header's predecessor — every sampled certificate comes from an ancestor
block distinct from the candidate, provided the candidate does not occur
among those ancestors (chain acyclicity at the observed depth). -/
theorem certificate_sample_bounded
    (cache : Nat → Option Block) (deser : Block → Option WaitCertificate)
    (hdr : BlockHeader) (n : Nat) :
    (build_certificate_list_spec cache deser hdr n).length ≤ n ∧
    (∀ m, n ≤ m →
      (build_certificate_list_spec cache deser hdr n).length ≤
        available_ancestors cache hdr.previous_block_id m) ∧
    (∀ cand : Block,
      (∀ k ∈ List.range n,
        chain_lookup cache hdr.previous_block_id k ≠ some cand) →
      ∀ c ∈ build_certificate_list_spec cache deser hdr n,
        ∃ b, b ≠ cand ∧ deser b = some c) := by
  refine ⟨build_walk_length_le cache deser n hdr.previous_block_id, ?_, ?_⟩
  · intro m hm
    exact le_trans
      (build_walk_length_le_available cache deser n hdr.previous_block_id)
      (available_ancestors_mono cache n m hm hdr.previous_block_id)
  · intro cand hacyc c hc
    obtain ⟨k, hk, b, hcl, hd⟩ :=
      build_walk_mem cache deser n hdr.previous_block_id c hc
    refine ⟨b, ?_, hd⟩
    intro hbc
    subst hbc
    exact hacyc k (List.mem_range.mpr hk) hcl

/-- Claim C7 witness: one-ancestor chain under bound 3, ancestors counted
to depth 5, candidate block not an ancestor of itself. -/
theorem certificate_sample_bounded_witness :
    (build_certificate_list_spec cacheAB deserConsensus
      blockB.header 3).length ≤ 3 ∧
    (build_certificate_list_spec cacheAB deserConsensus
      blockB.header 3).length ≤
      available_ancestors cacheAB blockB.header.previous_block_id 5 ∧
    (∀ c ∈ build_certificate_list_spec cacheAB deserConsensus
        blockB.header 3,
      ∃ b, b ≠ blockB ∧ deserConsensus b = some c) :=
  ⟨(certificate_sample_bounded cacheAB deserConsensus blockB.header 3).1,
   (certificate_sample_bounded cacheAB deserConsensus blockB.header 3).2.1
     5 (by decide),
   (certificate_sample_bounded cacheAB deserConsensus blockB.header 3).2.2
     blockB (by decide)⟩

/-- Claim C6 counterexample: with a state-view factory raising an
exception outside the `KeyError`/`ValueError` taxonomy, `verify_block`
propagates the exception to its caller instead of resolving to a boolean
reject. -/
theorem verify_block_propagates_counterexample :
    (verify_block envRaises blockB 5).fst = Except.error PyExc.otherError ∧
    ∀ b : Bool, (verify_block envRaises blockB 5).fst ≠ Except.ok b := by
  refine ⟨by decide, ?_⟩
  intro b
  cases b
  · decide
  · decide

/-- Claim C6 (amended): `verify_block` resolves failures to a boolean only
for the cases its handlers anticipate; whenever its result is an
exception, that exception came from the state-view factory, from
enclave-module selection, or was a non-`KeyError`/`ValueError` failure of
a call inside the proposer-verification `try` block, and it propagates to
the caller rather than producing a reject. -/
theorem verify_block_exception_sources
    (env : Env) (bw : Block) (n : Nat) (e : PyExc)
    (h : (verify_block env bw n).fst = Except.error e) :
    env.create_view (resolve_state_root env.block_cache bw) =
      Except.error e ∨
    (∃ sv, env.create_view (resolve_state_root env.block_cache bw) =
        Except.ok sv ∧
      env.get_poet_enclave_module sv = Except.error e) ∨
    (e = PyExc.otherError ∧
      ∃ sv m info,
        env.create_view (resolve_state_root env.block_cache bw) =
          Except.ok sv ∧
        env.get_poet_enclave_module sv = Except.ok m ∧
        0 < ((env.registry sv).get_validators).length ∧
        (env.registry sv).get_validator_info bw.header.signer_pubkey =
          Except.ok info ∧
        (env.build_certificate_list bw.header m n =
            Except.error PyExc.otherError ∨
          ∃ certs, env.build_certificate_list bw.header m n =
              Except.ok certs ∧
            (env.deserialize_wait_certificate bw m =
                Except.error PyExc.otherError ∨
              ∃ wc, env.deserialize_wait_certificate bw m =
                  Except.ok wc ∧
                env.check_valid wc m certs info.poet_public_key =
                  Except.error PyExc.otherError))) := by
  cases hv : env.create_view (resolve_state_root env.block_cache bw) with
  | error e1 =>
    have he1 : e1 = e := by
      simp [verify_block, hv] at h
      exact h
    exact Or.inl (by rw [he1])
  | ok sv =>
    cases he : env.get_poet_enclave_module sv with
    | error e2 =>
      have he2 : e2 = e := by
        simp [verify_block, hv, he] at h
        exact h
      exact Or.inr (Or.inl ⟨sv, rfl, he2 ▸ he⟩)
    | ok m =>
      by_cases hr : 0 < ((env.registry sv).get_validators).length
      · cases hf : ((env.registry sv).entries).find?
            (fun x => x.fst = bw.header.signer_pubkey) with
        | none =>
          exfalso
          simp [verify_block, verify_try_body,
            ValidatorRegistryView.get_validator_info, hv, he, hr, hf] at h
        | some p =>
          have hl : (env.registry sv).get_validator_info
              bw.header.signer_pubkey = Except.ok p.snd := by
            simp [ValidatorRegistryView.get_validator_info, hf]
          cases hb : env.build_certificate_list bw.header m n with
          | error eb =>
            cases eb with
            | keyError =>
              exfalso
              simp [verify_block, verify_try_body, hv, he, hr, hl, hb] at h
            | valueError =>
              exfalso
              simp [verify_block, verify_try_body, hv, he, hr, hl, hb] at h
            | otherError =>
              have hee : e = PyExc.otherError := by
                simp [verify_block, verify_try_body, hv, he, hr, hl, hb] at h
                exact h.symm
              exact Or.inr (Or.inr ⟨hee, sv, m, p.snd, rfl, he, hr, hl,
                Or.inl hb⟩)
          | ok certs =>
            cases hd : env.deserialize_wait_certificate bw m with
            | error ed =>
              cases ed with
              | keyError =>
                exfalso
                simp [verify_block, verify_try_body, hv, he, hr, hl, hb,
                  hd] at h
              | valueError =>
                exfalso
                simp [verify_block, verify_try_body, hv, he, hr, hl, hb,
                  hd] at h
              | otherError =>
                have hee : e = PyExc.otherError := by
                  simp [verify_block, verify_try_body, hv, he, hr, hl, hb,
                    hd] at h
                  exact h.symm
                exact Or.inr (Or.inr ⟨hee, sv, m, p.snd, rfl, he, hr, hl,
                  Or.inr ⟨certs, hb, Or.inl hd⟩⟩)
            | ok wc =>
              cases hc : env.check_valid wc m certs p.snd.poet_public_key
                  with
              | error ec =>
                cases ec with
                | keyError =>
                  exfalso
                  simp [verify_block, verify_try_body, hv, he, hr, hl, hb,
                    hd, hc] at h
                | valueError =>
                  exfalso
                  simp [verify_block, verify_try_body, hv, he, hr, hl, hb,
                    hd, hc] at h
                | otherError =>
                  have hee : e = PyExc.otherError := by
                    simp [verify_block, verify_try_body, hv, he, hr, hl,
                      hb, hd, hc] at h
                    exact h.symm
                  exact Or.inr (Or.inr ⟨hee, sv, m, p.snd, rfl, he, hr, hl,
                    Or.inr ⟨certs, hb, Or.inr ⟨wc, hd, hc⟩⟩⟩)
              | ok u =>
                exfalso
                simp [verify_block, verify_try_body, hv, he, hr, hl, hb,
                  hd, hc] at h
      · exfalso
        simp [verify_block, hv, he, hr] at h

/-- Claim C6 (amended) witness: a concrete run in which the state-view
factory's exception propagates through `verify_block`. -/
theorem verify_block_exception_sources_witness :
    (verify_block envRaises blockB 5).fst = Except.error PyExc.otherError ∧
    (envRaises.create_view
        (resolve_state_root envRaises.block_cache blockB) =
      Except.error PyExc.otherError ∨
    (∃ sv, envRaises.create_view
        (resolve_state_root envRaises.block_cache blockB) =
        Except.ok sv ∧
      envRaises.get_poet_enclave_module sv =
        Except.error PyExc.otherError) ∨
    (PyExc.otherError = PyExc.otherError ∧
      ∃ sv m info,
        envRaises.create_view
          (resolve_state_root envRaises.block_cache blockB) =
          Except.ok sv ∧
        envRaises.get_poet_enclave_module sv = Except.ok m ∧
        0 < ((envRaises.registry sv).get_validators).length ∧
        (envRaises.registry sv).get_validator_info
          blockB.header.signer_pubkey = Except.ok info ∧
        (envRaises.build_certificate_list blockB.header m 5 =
            Except.error PyExc.otherError ∨
          ∃ certs, envRaises.build_certificate_list blockB.header m 5 =
              Except.ok certs ∧
            (envRaises.deserialize_wait_certificate blockB m =
                Except.error PyExc.otherError ∨
              ∃ wc, envRaises.deserialize_wait_certificate blockB m =
                  Except.ok wc ∧
                envRaises.check_valid wc m certs info.poet_public_key =
                  Except.error PyExc.otherError)))) :=
  ⟨by decide,
    verify_block_exception_sources envRaises blockB 5 PyExc.otherError
      (by decide)⟩

/-- Updating the block-cache field leaves the `try`-block body unchanged:
it reads only the registry, builder, deserializer and `check_valid`
collaborators. -/
theorem verify_try_body_cache_update (env : Env)
    (c : Nat → Option Block) (bw : Block) (sv m n : Nat) :
    verify_try_body { env with block_cache := c } bw sv m n =
      verify_try_body env bw sv m n :=
  rfl

/-- Claim C10: `verify_block` mutates no shared state.  In state-passing
form the verifier fields (block cache, state view factory, data
directory) — and with them the blocks held in the cache — come back
unchanged on every path, and the decision together with the log records
(its only side effects) agrees with the pure reading of the method. -/
theorem verify_block_no_state_mutation
    (env : Env) (s : VerifierState) (bw : Block) (n : Nat) :
    (verify_block_st env s bw n).snd = s ∧
    (verify_block_st env s bw n).fst =
      verify_block { env with block_cache := s.block_cache } bw n := by
  have key : verify_block_st env s bw n =
      (verify_block { env with block_cache := s.block_cache } bw n, s) := by
    cases hv : env.create_view
        (state_root_of (s.block_cache bw.previous_block_id) bw) with
    | error e =>
      simp [verify_block_st, verify_block, cache_get, resolve_state_root,
        hv]
    | ok sv =>
      cases he : env.get_poet_enclave_module sv with
      | error e2 =>
        simp [verify_block_st, verify_block, cache_get, resolve_state_root,
          hv, he]
      | ok m =>
        by_cases hr : 0 < ((env.registry sv).get_validators).length
        · cases ht : verify_try_body env bw sv m n with
          | ok logs =>
            simp [verify_block_st, verify_block, cache_get,
              resolve_state_root, verify_try_body_cache_update, hv, he, hr,
              ht]
          | error p =>
            obtain ⟨e0, logs⟩ := p
            cases e0 <;>
              simp [verify_block_st, verify_block, cache_get,
                resolve_state_root, verify_try_body_cache_update, hv, he,
                hr, ht]
        · simp [verify_block_st, verify_block, cache_get,
            resolve_state_root, hv, he, hr]
  exact ⟨by rw [key], by rw [key]⟩
